import Mathlib

/-!
# Verification of the Lasseck2013 feature pipeline and the Spectrogram container

A shallow embedding, over `ℚ`-valued matrices, of

* `modules/model_fit_algo/lasseck2013/model_fit_algo.py`
  (`file_stats`, `file_file_stats`, `run_stats`, `build_X_y`), and
* `opensoundscape/spectrogram.py` (the `Spectrogram` class and its
  derived operations),

together with theorems settling the frozen claims about them.

External collaborators that the Python module imports from elsewhere
(the MongoDB access layer `modules.db_utils`, the spectrogram generator
`modules.spect_gen`, the Gaussian filter `modules.image_utils`, the
OpenCV functions `matchTemplate`/`minMaxLoc`, and the square root used
by `pandas.DataFrame.describe`) are modelled as components of an
environment record `Env`: the theorems quantify over them.  Machine
floats are modelled by `ℚ` where only finite values can occur, and by
the four-constructor type `PVal` (finite / NaN / +Inf / -Inf) where the
code manipulates possibly non-finite persisted statistics.
-/

set_option linter.unusedVariables false

namespace Lasseck

/-- A file label (index into the labels table). -/
abbrev Label := ℕ

/-- A 2-D numeric array: a list of rows. -/
abbrev Mat := List (List ℚ)

/-- Number of rows (`arr.shape[0]` in numpy). -/
def matHeight (m : Mat) : ℕ := m.length

/-- Number of columns (`arr.shape[1]`); numpy arrays are rectangular, so
the first row's length is the width of the whole array. -/
def matWidth (m : Mat) : ℕ :=
  match m with
  | [] => 0
  | r :: _ => r.length

/-- Elementwise scalar multiplication: `spec * normal` (line 56). -/
def smul (c : ℚ) (m : Mat) : Mat := m.map (fun r => r.map (fun x => c * x))

/-- One row of a bounding-box table, in spectrogram pixel coordinates
(`x_min`, `x_max`, `y_min`, `y_max` columns of the pandas DataFrame). -/
structure Box where
  x_min : ℤ
  x_max : ℤ
  y_min : ℤ
  y_max : ℤ
  deriving DecidableEq, Repr

/-- A bounding-box table: the ordered rows of the DataFrame. -/
abbrev BoxTable := List Box

/-- Python slice `xs[a:b]` for `0 ≤ a` (clamping at the ends, empty when
`b ≤ a`), on a list. -/
def pySlice (xs : List α) (a b : ℤ) : List α :=
  ((xs.drop a.toNat).take (b - a).toNat)

/-- 2-D slice `m[y0:y1, x0:x1]`. -/
def slice2d (m : Mat) (y0 y1 x0 x1 : ℤ) : Mat :=
  (pySlice m y0 y1).map (fun r => pySlice r x0 x1)

/-- Row stripe `m[y0:y1, :]`. -/
def sliceRows (m : Mat) (y0 y1 : ℤ) : Mat := pySlice m y0 y1

/-! ## Statistics primitives (scipy.stats.describe / pandas describe) -/

/-- Minimum of a list of rationals (`np.min`); 0 on the empty list,
which the code never hits on real data. -/
def listMin (xs : List ℚ) : ℚ :=
  match xs with
  | [] => 0
  | h :: t => t.foldl min h

/-- Maximum of a list of rationals (`np.max`). -/
def listMax (xs : List ℚ) : ℚ :=
  match xs with
  | [] => 0
  | h :: t => t.foldl max h

/-- Arithmetic mean. -/
def listMean (xs : List ℚ) : ℚ := xs.sum / (xs.length : ℚ)

/-- Sample variance with `ddof = 1`, as used both by
`scipy.stats.describe` and by `pandas.DataFrame.describe`. -/
def listVar (xs : List ℚ) : ℚ :=
  ((xs.map (fun x => (x - listMean xs) ^ 2)).sum) / ((xs.length : ℚ) - 1)

/-- The four statistics `[min, max, mean, variance]` that the code reads
off a `scipy.stats.describe` result (lines 74-79). -/
def describe4 (xs : List ℚ) : List ℚ :=
  [listMin xs, listMax xs, listMean xs, listVar xs]

/-! ## `np.array_split` -/

/-- Section sizes of `np.array_split(xs, k)`: `n mod k` sections of size
`n / k + 1` followed by `k - n mod k` sections of size `n / k`. -/
def splitSizes (n k : ℕ) : List ℕ :=
  List.replicate (n % k) (n / k + 1) ++ List.replicate (k - n % k) (n / k)

/-- Cut successive chunks of the given sizes off the front of a list. -/
def takeChunks (xs : List α) : List ℕ → List (List α)
  | [] => []
  | s :: rest => xs.take s :: takeChunks (xs.drop s) rest

/-- `np.array_split(xs, k)` along axis 0 (line 62). -/
def array_split (xs : List α) (k : ℕ) : List (List α) :=
  takeChunks xs (splitSizes xs.length k)

/-! ## Environment: external collaborators of `model_fit_algo.py` -/

/-- A persisted statistics value can be a finite float or one of the
IEEE non-finite values NaN, +Inf, -Inf. -/
inductive PVal where
  | num (q : ℚ)
  | nan
  | inf
  | ninf
  deriving DecidableEq, Repr

/-- `True` exactly on finite values. -/
def PVal.isFinite : PVal → Bool
  | .num _ => true
  | _ => false

/-- Largest finite double, `1.7976931348623157e308`: the value
`np.nan_to_num` substitutes for `+Inf`. -/
def maxFloat : ℚ := 17976931348623157 * 10 ^ 292

/-- `np.nan_to_num` on one element: NaN becomes 0, `+Inf` becomes the
largest finite double, `-Inf` its negation, finite values unchanged. -/
def nan_to_num : PVal → PVal
  | .num q => .num q
  | .nan => .num 0
  | .inf => .num maxFloat
  | .ninf => .num (-maxFloat)

/-- The external collaborators of `model_fit_algo.py`, as functions.
`read_spec` is the persisted-spectrogram read path
(`read_spectrogram` / `return_cursor` + `cursor_item_to_data` on the
`spectrograms` collection), `pool_db_read` is the same read against the
alternate `template_pool_db` source, `spect_gen` is live generation,
`gaussian` is `apply_gaussian_filter` at the configured sigma,
`bestMatch` is `minMaxLoc(matchTemplate(img, tmpl, 5))` returning
`(max_val, max_loc_x, max_loc_y)`, `sqrtQ` is the square root used by
`pandas.describe` for `std`, and `statsDb` is the persisted
`statistics` collection read by `build_X_y` (first-order row plus the
match-stats dictionary, keyed by label). -/
structure Env where
  read_spec : Label → BoxTable × Mat × ℚ
  pool_db_read : Label → BoxTable × Mat × ℚ
  spect_gen : Label → BoxTable × Mat × ℚ
  gaussian : Mat → Mat
  bestMatch : Mat → Mat → ℚ × ℕ × ℕ
  sqrtQ : ℚ → ℚ
  statsDb : Label → Option (List PVal × List (Label × List (List PVal)))

/-- The recognized configuration options of the `model_fit` /
`general` sections.  `template_pool` holds the parsed pool CSV
(`pools_df`: label to JSON-decoded list of box indices) when the option
is set, and `template_pool_db` records whether an alternate source name
is configured. -/
structure Config where
  db_rw : Bool
  num_frequency_bands : ℕ
  template_match_frequency_buffer : ℤ
  template_pool : Option (List (Label × List ℕ))
  template_pool_db : Bool

/-! ## First-order statistics: `file_stats` (lines 31-94) -/

/-- Per-band statistics (lines 62-65): `describe4` of each band of
`np.array_split(raw, K)`, each band flattened (`axis=None`). -/
def band_stats (raw : Mat) (k : ℕ) : List (List ℚ) :=
  (array_split raw k).map (fun b => describe4 b.flatten)

/-- The segment-statistics block (lines 67-89): derive `width` and
`height` on the box table, then `{min, max, mean, std}` over
`{width, height, y_min}` — `df[['width','height','y_min']].describe()`
rows `min`, `max`, `mean`, `std`, each a 3-vector in column order
`width, height, y_min`.  The code detects an empty table through
pandas' degenerate `describe` output (`len(df_stats) == 2`, commented
"it contains no segments") and then appends `np.zeros((3, 4))`. -/
def seg_stats (sqrtQ : ℚ → ℚ) (df : BoxTable) : List ℚ :=
  if df = [] then List.replicate 12 0
  else
    let ws := df.map (fun b => ((b.x_max - b.x_min : ℤ) : ℚ))
    let hs := df.map (fun b => ((b.y_max - b.y_min : ℤ) : ℚ))
    let ys := df.map (fun b => ((b.y_min : ℤ) : ℚ))
    [listMin ws, listMin hs, listMin ys,
     listMax ws, listMax hs, listMax ys,
     listMean ws, listMean hs, listMean ys,
     sqrtQ (listVar ws), sqrtQ (listVar hs), sqrtQ (listVar ys)]

/-- `file_stats(label, config)` (lines 31-94): obtain
`(df, spec, normal)` from the persisted store when `db_rw` else from
live generation, form `raw = spec * normal`, and build the flat row
global stats ++ per-band stats ++ segment stats (the successive
`np.append`s followed by `np.ravel`).  Returns
`(df, spec, normal, row)`. -/
def file_stats (env : Env) (cfg : Config) (label : Label) :
    (BoxTable × Mat × ℚ) × List ℚ :=
  let data := if cfg.db_rw then env.read_spec label else env.spect_gen label
  let df := data.1
  let spec := data.2.1
  let normal := data.2.2
  let raw := smul normal spec
  let row := describe4 raw.flatten
    ++ (band_stats raw cfg.num_frequency_bands).flatten
    ++ seg_stats env.sqrtQ df
  (data, row)


/-! ## Segment extraction (modelled from the spec) -/

/-- Monadic map over `Except`, written out structurally: apply `f` to
each element in order, propagating the first error (the semantics of
iterating a Python loop that may raise). -/
def mapE (f : α → Except String β) : List α → Except String (List β)
  | [] => .ok []
  | x :: xs =>
    match f x with
    | .error e => .error e
    | .ok y =>
      match mapE f xs with
      | .error e => .error e
      | .ok ys => .ok (y :: ys)

/-- Modelled from the spec: `extract_segments` lives in `modules/view`,
which is not among the provided sources.  Per the spec's contract
(section 4.1) it returns, for each row of the bounding-box table, the
crop `spectrogram[y_min:y_max, x_min:x_max]`, aligned index-for-index
with the table, and fails with an out-of-range error exactly when a
box's coordinates exceed the spectrogram bounds. -/
def extract_segments (spec : Mat) (df : BoxTable) : Except String (List Mat) :=
  mapE (fun b =>
    if 0 ≤ b.x_min ∧ b.x_min ≤ b.x_max ∧ b.x_max ≤ (matWidth spec : ℤ) ∧
       0 ≤ b.y_min ∧ b.y_min ≤ b.y_max ∧ b.y_max ≤ (matHeight spec : ℤ) then
      .ok (slice2d spec b.y_min b.y_max b.x_min b.x_max)
    else
      .error "extract_segments: box out of spectrogram bounds") df

/-! ## Cross-file template matcher: `file_file_stats` (lines 97-190) -/

/-- Lines 168-171: `y_min_target = 0`, overwritten with
`y_min - frequency_buffer` when `y_min > frequency_buffer`. -/
def yMinTarget (buffer y_min : ℤ) : ℤ :=
  if y_min > buffer then y_min - buffer else 0

/-- Lines 173-176: `y_max_target = spec_two.shape[0]`, overwritten with
`y_max + frequency_buffer` when `y_max < spec_two.shape[0] -
frequency_buffer`.  Note the height used is that of the *candidate's*
(smoothed) spectrogram `spec_two`, not of the source `spec_one`. -/
def yMaxTarget (buffer h_two y_max : ℤ) : ℤ :=
  if y_max < h_two - buffer then y_max + buffer else h_two

/-- The three match statistics `(ℚ × ℚ × ℚ)` of one template row. -/
abbrev Triple := ℚ × ℚ × ℚ

/-- The eligibility test of lines 182-183: the search-window height is
at most `spec_one`'s height and the template width at most `spec_one`'s
width. -/
def eligible (buffer : ℤ) (h_two : ℤ) (spec_one : Mat) (b : Box) : Prop :=
  yMaxTarget buffer h_two b.y_max - yMinTarget buffer b.y_min ≤ (matHeight spec_one : ℤ) ∧
  b.x_max - b.x_min ≤ (matWidth spec_one : ℤ)

instance (buffer h_two : ℤ) (spec_one : Mat) (b : Box) :
    Decidable (eligible buffer h_two spec_one b) := by
  unfold eligible; infer_instance

/-- The value written into row `idx` when the template is eligible
(lines 184-189): `matchTemplate` of the stripe
`spec_one[y_min_target:y_max_target, :]` against the segment, then
`minMaxLoc`; the row becomes `[max_val, max_x, max_y + y_min_target]`. -/
def matchValue (bestMatch : Mat → Mat → ℚ × ℕ × ℕ) (buffer h_two : ℤ)
    (spec_one : Mat) (b : Box) (seg : Mat) : Triple :=
  let y0 := yMinTarget buffer b.y_min
  let y1 := yMaxTarget buffer h_two b.y_max
  let r := bestMatch (sliceRows spec_one y0 y1) seg
  (r.1, (r.2.1 : ℚ), (r.2.2 : ℚ) + (y0 : ℚ))

/-- The loop of lines 167-189 over the enumerated rows of `df_two`
(paired with their extracted segments), updating the zero-initialized
array in place: row `idx` is `.set` only when the eligibility test
passes. -/
def writeRows (bestMatch : Mat → Mat → ℚ × ℕ × ℕ) (buffer h_two : ℤ)
    (spec_one : Mat) : List (Box × Mat) → ℕ → List Triple → List Triple
  | [], _, acc => acc
  | (b, seg) :: rest, idx, acc =>
    writeRows bestMatch buffer h_two spec_one rest (idx + 1)
      (if eligible buffer h_two spec_one b then
        acc.set idx (matchValue bestMatch buffer h_two spec_one b seg)
      else acc)

/-- Lines 163-189 for one candidate: `np.zeros((df_two.shape[0], 3))`
then the template-matching loop. -/
def match_stats_array (bestMatch : Mat → Mat → ℚ × ℕ × ℕ) (buffer h_two : ℤ)
    (spec_one : Mat) (rows : List (Box × Mat)) : List Triple :=
  writeRows bestMatch buffer h_two spec_one rows 0
    (List.replicate rows.length ((0 : ℚ), (0 : ℚ), (0 : ℚ)))

/-- `df_two.iloc[indices]`: positional row selection, raising
`IndexError` when an index is out of bounds. -/
def iloc (df : BoxTable) (idxs : List ℕ) : Except String BoxTable :=
  mapE (fun i =>
    match df.get? i with
    | some b => .ok b
    | none => .error "IndexError: positional indexer out of bounds") idxs

/-- The body of the cursor loop (lines 143-189) for one item of label
`idx_two`: obtain `(df_two, spec_two, normal_two)` from `src`, smooth
`spec_two`, downselect the table through the pool when configured,
extract segments, and build the match-stats array.  `pools_df.loc
[idx_two]` raises `KeyError` when the label is missing from the pool
table. -/
def process_item (env : Env) (cfg : Config) (spec_one : Mat)
    (src : Label → BoxTable × Mat × ℚ) (idx_two : Label) :
    Except String (Label × List Triple) :=
  let data := src idx_two
  let spec_two := env.gaussian data.2.1
  let sel : Except String BoxTable :=
    match cfg.template_pool with
    | some pools =>
      match pools.lookup idx_two with
      | some idxs => iloc data.1 idxs
      | none => .error "KeyError: label not in template pool"
    | none => .ok data.1
  match sel with
  | .error e => .error e
  | .ok df_two =>
    match extract_segments spec_two df_two with
    | .error e => .error e
    | .ok segs =>
      .ok (idx_two, match_stats_array env.bestMatch
        cfg.template_match_frequency_buffer (matHeight spec_two : ℤ)
        spec_one (df_two.zip segs))

/-- `file_file_stats(df_one, spec_one, normal_one, labels_df, config)`
(lines 97-190).  Under `db_rw` the cursor iterates over the pool labels
(read from `template_pool_db` when configured, else from the main
store) or, with no pool, over all labels of `labels_df`; the result
dictionary gets one entry per item, in cursor order.  When `db_rw` is
false the code builds `items = {'label': x for x in labels}` — a
dict comprehension producing the single-key dict `{'label': last}` —
so iterating yields the key string `'label'` and `item['label']`
raises `TypeError: string indices must be integers` as soon as the
labels list is non-empty (with an empty list the dict is empty, the
loop body never runs, and the empty dictionary is returned). -/
def file_file_stats (env : Env) (cfg : Config) (df_one : BoxTable)
    (spec_one : Mat) (normal_one : ℚ) (labels : List Label) :
    Except String (List (Label × List Triple)) :=
  if cfg.db_rw then
    match cfg.template_pool with
    | some pools =>
      let src := if cfg.template_pool_db then env.pool_db_read else env.read_spec
      mapE (process_item env cfg spec_one src) (pools.map Prod.fst)
    | none => mapE (process_item env cfg spec_one env.read_spec) labels
  else
    match labels with
    | [] => .ok []
    | _ :: _ => .error "TypeError: string indices must be integers"

/-! ## Feature assembler: `build_X_y` (lines 218-263) -/

/-- The fixed candidate/template set of lines 234-239: the pool labels
when a template pool is configured, else the positively-labeled files
of the current target column (`labels_df[x] == 1`). -/
def candidate_set (cfg : Config) (labels_df : List (Label × ℤ)) : List Label :=
  match cfg.template_pool with
  | some pools => pools.map Prod.fst
  | none => labels_df.filterMap (fun lv => if lv.2 = 1 then some lv.1 else none)

/-- One row of the design matrix, for one label (lines 241-263).  The
code fills slot `mono_idx` from the cursor item (`cursor_item_to_stats`),
downselects the match-stats dictionary to the candidate set
(`KeyError` when a candidate is missing), passes the stacked
first-order rows through `np.nan_to_num`, `np.vstack`s each file's
selected blocks and `reshape`s to one flat segment (row-major, so the
flat segment is the concatenation of the selected blocks, each
flattened), and `np.hstack`s both parts.  A label whose statistics were
never persisted leaves a `None` slot, which the subsequent numpy
operations reject. -/
def build_row (env : Env) (get_for : List Label) (l : Label) :
    Except String (List PVal) :=
  match env.statsDb l with
  | none => .error "missing persisted statistics for label"
  | some fs =>
    match mapE (fun c =>
        match fs.2.lookup c with
        | some blk => Except.ok blk
        | none => Except.error "KeyError: candidate label not in match stats")
        get_for with
    | .error e => .error e
    | .ok blocks => .ok (fs.1.map nan_to_num ++ (blocks.map List.flatten).flatten)

/-- `build_X_y(labels_df, config)` (lines 218-263): `labels_df` is one
target column, an ordered association of label to binary target value.
Returns the design matrix `X` (one row per label, in label order) and
the label vector `y = labels_df.values`. -/
def build_X_y (env : Env) (cfg : Config) (labels_df : List (Label × ℤ)) :
    Except String (List (List PVal) × List ℤ) :=
  let get_for := candidate_set cfg labels_df
  match mapE (fun lv => build_row env get_for lv.1) labels_df with
  | .error e => .error e
  | .ok X => .ok (X, labels_df.map Prod.snd)

/-! ## Parallel orchestrator: `run_stats` (lines 193-215) -/

/-- One call to the persistence layer's `write_file_stats(idx_one,
row_f, match_stats, config)`: the written key and both payloads. -/
structure WriteEvent where
  label : Label
  row : List ℚ
  match_stats : List (Label × List Triple)
  deriving DecidableEq

/-- `run_stats(idx_one, labels_df, config)` (lines 193-215): compute
`file_stats`, smooth `spec_one`, compute `file_file_stats`, and issue
the single `write_file_stats` call.  The function returns nothing to
its caller; its observable behaviour is the list of persistence writes
it performs, which we return (failures of the statistics computation
abort before any write). -/
def run_stats (env : Env) (cfg : Config) (idx_one : Label)
    (labels : List Label) : Except String (List WriteEvent) :=
  let fr := file_stats env cfg idx_one
  let df_one := fr.1.1
  let spec_one := env.gaussian fr.1.2.1
  let normal_one := fr.1.2.2
  let row_f := fr.2
  match file_file_stats env cfg df_one spec_one normal_one labels with
  | .error e => .error e
  | .ok match_stats => .ok [⟨idx_one, row_f, match_stats⟩]

end Lasseck

namespace OpenSoundscape

/-- `opensoundscape/spectrogram.py`: the immutable `Spectrogram`
container.  `frequencies` and `times` are 1-D arrays, `spectrogram` a
2-D array of shape `(len(frequencies), len(times))`, `decibel_limits` a
pair; the four optional creation parameters default to `None`. -/
structure Spectrogram where
  spectrogram : Lasseck.Mat
  frequencies : List ℚ
  times : List ℚ
  decibel_limits : ℚ × ℚ
  window_samples : Option ℕ
  overlap_samples : Option ℕ
  window_type : Option String
  audio_sample_rate : Option ℕ
  deriving DecidableEq, Repr

/-- `Spectrogram.__init__` (lines 45-102): the type checks are carried
by the Lean types; the remaining runtime checks are the dimension
checks (`spectrogram.shape == (frequencies.shape[0], times.shape[0])`,
raising `TypeError` on mismatch).  The four optional fields default to
`none` when the caller does not pass them — which none of the derived
operations do. -/
def mkSpectrogram (spec : Lasseck.Mat) (frequencies times : List ℚ)
    (decibel_limits : ℚ × ℚ)
    (window_samples : Option ℕ := none) (overlap_samples : Option ℕ := none)
    (window_type : Option String := none) (audio_sample_rate : Option ℕ := none) :
    Except String Spectrogram :=
  if spec.length = frequencies.length ∧
     spec.all (fun r => r.length = times.length) then
    .ok ⟨spec, frequencies, times, decibel_limits,
      window_samples, overlap_samples, window_type, audio_sample_rate⟩
  else
    .error "TypeError: dimension mismatch"

/-- `np.abs(xs - v).argmin()`: index of the first element of `xs`
minimizing `|x - v|`; numpy raises `ValueError` on an empty array. -/
def argminAbsDist (xs : List ℚ) (v : ℚ) : Except String ℕ :=
  match xs.map (fun x => |x - v|) with
  | [] => .error "ValueError: argmin of an empty sequence"
  | d :: ds =>
    .ok (((d :: ds).enum.foldl
      (fun best cur => if cur.2 < best.2 then cur else best) (0, d)).1)

/-- `opensoundscape/helpers.py` `min_max_scale` (the helpers module is
not among the provided sources): linearly rescale the array so its
minimum and maximum map onto `feature_range`.  The claims proved below
hold for every value-level behaviour of this helper: only the array
shape matters, which a linear rescale preserves elementwise. -/
def helper_min_max_scale (m : Lasseck.Mat) (feature_range : ℚ × ℚ) : Lasseck.Mat :=
  let lo := Lasseck.listMin m.flatten
  let hi := Lasseck.listMax m.flatten
  m.map (fun r => r.map (fun x =>
    (x - lo) / (hi - lo) * (feature_range.2 - feature_range.1) + feature_range.1))

/-- `opensoundscape/helpers.py` `linear_scale` (not among the provided
sources): linearly map `in_range` onto `out_range`, elementwise. -/
def helper_linear_scale (m : Lasseck.Mat) (in_range out_range : ℚ × ℚ) : Lasseck.Mat :=
  m.map (fun r => r.map (fun x =>
    (x - in_range.1) * (out_range.2 - out_range.1) / (in_range.2 - in_range.1)
      + out_range.1))

/-- `Spectrogram.min_max_scale` (lines 222-247): validate
`feature_range`, rescale the array, and construct a new `Spectrogram`
passing only the four positional arguments — `decibel_limits` is
forwarded, the optional fields take their `None` defaults. -/
def Spectrogram.min_max_scale (s : Spectrogram) (feature_range : ℚ × ℚ) :
    Except String Spectrogram :=
  if feature_range.2 < feature_range.1 then
    .error "AttributeError: feature_range is not increasing"
  else
    mkSpectrogram (helper_min_max_scale s.spectrogram feature_range)
      s.frequencies s.times s.decibel_limits

/-- `Spectrogram.linear_scale` (lines 249-276). -/
def Spectrogram.linear_scale (s : Spectrogram) (feature_range : ℚ × ℚ) :
    Except String Spectrogram :=
  if feature_range.2 < feature_range.1 then
    .error "AttributeError: feature_range is not increasing"
  else
    mkSpectrogram (helper_linear_scale s.spectrogram s.decibel_limits feature_range)
      s.frequencies s.times s.decibel_limits

/-- `Spectrogram.limit_db_range` (lines 278-302): clamp values to
`[min_db, max_db]` after validating `max_db > min_db`. -/
def Spectrogram.limit_db_range (s : Spectrogram) (min_db max_db : ℚ) :
    Except String Spectrogram :=
  if ¬ max_db > min_db then
    .error "ValueError: max_db must be greater than min_db"
  else
    mkSpectrogram
      (s.spectrogram.map (fun r => r.map (fun x =>
        if x > max_db then max_db else if x < min_db then min_db else x)))
      s.frequencies s.times s.decibel_limits

/-- `Spectrogram.bandpass` (lines 304-333): validate `min_f < max_f`,
find the indices of the frequencies closest to `min_f` and `max_f`, and
slice rows `lowest : highest + 1` of the array and of `frequencies`. -/
def Spectrogram.bandpass (s : Spectrogram) (min_f max_f : ℚ) :
    Except String Spectrogram :=
  if min_f ≥ max_f then
    .error "ValueError: min_f must be less than max_f"
  else
    match argminAbsDist s.frequencies min_f, argminAbsDist s.frequencies max_f with
    | .error e, _ => .error e
    | .ok _, .error e => .error e
    | .ok lowest, .ok highest =>
      mkSpectrogram
        (Lasseck.pySlice s.spectrogram (lowest : ℤ) ((highest : ℤ) + 1))
        (Lasseck.pySlice s.frequencies (lowest : ℤ) ((highest : ℤ) + 1))
        s.times s.decibel_limits

/-- `Spectrogram.trim` (lines 335-357): like `bandpass` on the time
axis — slice columns `lowest : highest + 1` of the array and of
`times`. -/
def Spectrogram.trim (s : Spectrogram) (start_time end_time : ℚ) :
    Except String Spectrogram :=
  match argminAbsDist s.times start_time, argminAbsDist s.times end_time with
  | .error e, _ => .error e
  | .ok _, .error e => .error e
  | .ok lowest, .ok highest =>
    mkSpectrogram
      (s.spectrogram.map (fun r => Lasseck.pySlice r (lowest : ℤ) ((highest : ℤ) + 1)))
      s.frequencies
      (Lasseck.pySlice s.times (lowest : ℤ) ((highest : ℤ) + 1))
      s.decibel_limits

/-- A concrete spectrogram whose optional creation parameters are all
set, used to exercise the derived operations. -/
def s0 : Spectrogram :=
  ⟨[[1]], [0], [0], (-100, -20), some 512, some 256, some "hann", some 22050⟩

end OpenSoundscape

namespace Lasseck

/-! ## Concrete instances used by the closed theorems below -/

/-- A 10-row, 1-column source spectrogram. -/
def specOne10 : Mat := List.replicate 10 [0]

/-- A 6-row, 1-column candidate spectrogram. -/
def specTwo6 : Mat := List.replicate 6 [0]

/-- Environment A: every label's persisted spectrogram is the 6-row
`specTwo6` with the single box `(x 0-1, y 4-6)`; no smoothing; the
abstract matcher reports the searched stripe's row count as the
correlation maximum (at location `(0, 0)`), which makes the vertical
search window observable in the output. -/
def envA : Env where
  read_spec := fun _ => ([⟨0, 1, 4, 6⟩], specTwo6, 1)
  pool_db_read := fun _ => ([⟨0, 1, 4, 6⟩], specTwo6, 1)
  spect_gen := fun _ => ([⟨0, 1, 4, 6⟩], specTwo6, 1)
  gaussian := id
  bestMatch := fun img _ => ((img.length : ℚ), 0, 0)
  sqrtQ := id
  statsDb := fun _ => none

/-- Environment B: every label's spectrogram is the 2-row `[[1], [2]]`
with an empty box table. -/
def envB : Env where
  read_spec := fun _ => ([], [[1], [2]], 1)
  pool_db_read := fun _ => ([], [[1], [2]], 1)
  spect_gen := fun _ => ([], [[1], [2]], 1)
  gaussian := id
  bestMatch := fun _ _ => (0, 0, 0)
  sqrtQ := id
  statsDb := fun _ => none

/-- Environment C: label 0's persisted statistics hold a NaN inside the
match-stats block for candidate 0. -/
def envC : Env :=
  { envB with statsDb := fun l =>
      if l = 0 then some ([.num 1], [(0, [[.num 1, .nan, .num 2]])]) else none }

/-- Environment D: label 0's persisted first-order row holds a NaN and
a `+Inf`; its match-stats block for candidate 0 is finite. -/
def envD : Env :=
  { envB with statsDb := fun l =>
      if l = 0 then some ([.nan, .inf], [(0, [[.num 5, .num 6, .num 7]])]) else none }

/-- Environment E: label 0's match-stats block for candidate 0 has two
template rows, so its flattened contribution is 6 wide, not 3. -/
def envE : Env :=
  { envB with statsDb := fun l =>
      if l = 0 then some ([.num 1], [(0, [[.num 1, .num 2, .num 3], [.num 4, .num 5, .num 6]])]) else none }

/-- Configuration A: persisted reads, 1 frequency band, a frequency
buffer of 1 pixel, no template pool. -/
def cfgA : Config where
  db_rw := true
  num_frequency_bands := 1
  template_match_frequency_buffer := 1
  template_pool := none
  template_pool_db := false

/-- Configuration for the live-generation path: `db_rw = False`. -/
def cfgLive : Config := { cfgA with db_rw := false }

/-! ## Lemmas about `mapE` -/

theorem mapE_ok_length {α β : Type} {f : α → Except String β} :
    ∀ {xs : List α} {ys : List β}, mapE f xs = .ok ys → ys.length = xs.length := by
  intro xs
  induction xs with
  | nil =>
    intro ys h
    simp only [mapE, Except.ok.injEq] at h
    simp [← h]
  | cons a xs ih =>
    intro ys h
    rw [mapE] at h
    cases hfa : f a with
    | error e => simp [hfa] at h
    | ok y =>
      cases hm : mapE f xs with
      | error e => simp [hfa, hm] at h
      | ok ys2 =>
        simp only [hfa, hm, Except.ok.injEq] at h
        simp [← h, ih hm]

theorem mapE_ok_get {α β : Type} {f : α → Except String β} :
    ∀ {xs : List α} {ys : List β}, mapE f xs = .ok ys →
      ∀ (i : ℕ) (x : α), xs[i]? = some x → ∃ y, f x = .ok y ∧ ys[i]? = some y := by
  intro xs
  induction xs with
  | nil => intro ys h i x hx; simp at hx
  | cons a xs ih =>
    intro ys h i x hx
    rw [mapE] at h
    cases hfa : f a with
    | error e => simp [hfa] at h
    | ok y =>
      cases hm : mapE f xs with
      | error e => simp [hfa, hm] at h
      | ok ys2 =>
        simp only [hfa, hm, Except.ok.injEq] at h
        subst h
        cases i with
        | zero =>
          simp only [List.getElem?_cons_zero, Option.some.injEq] at hx
          exact ⟨y, by simp [← hx, hfa]⟩
        | succ n =>
          simp only [List.getElem?_cons_succ] at hx
          obtain ⟨y2, hy2, hget⟩ := ih hm n x hx
          exact ⟨y2, hy2, by simpa using hget⟩

theorem mapE_ok_mem {α β : Type} {f : α → Except String β} :
    ∀ {xs : List α} {ys : List β}, mapE f xs = .ok ys →
      ∀ y ∈ ys, ∃ x ∈ xs, f x = .ok y := by
  intro xs
  induction xs with
  | nil =>
    intro ys h y hmem
    simp only [mapE, Except.ok.injEq] at h
    rw [← h] at hmem
    simp at hmem
  | cons a xs ih =>
    intro ys h y hmem
    rw [mapE] at h
    cases hfa : f a with
    | error e => simp [hfa] at h
    | ok y1 =>
      cases hm : mapE f xs with
      | error e => simp [hfa, hm] at h
      | ok ys2 =>
        simp only [hfa, hm, Except.ok.injEq] at h
        subst h
        rcases List.mem_cons.mp hmem with h1 | h2
        · exact ⟨a, by simp, by rw [h1]; exact hfa⟩
        · obtain ⟨x, hx, hfx⟩ := ih hm y h2
          exact ⟨x, by simp [hx], hfx⟩

theorem mapE_ok_map {α β γ : Type} {f : α → Except String β} (g : β → γ) (h2 : α → γ) :
    ∀ {xs : List α} {ys : List β}, mapE f xs = .ok ys →
      (∀ x ∈ xs, ∀ y, f x = .ok y → g y = h2 x) → ys.map g = xs.map h2 := by
  intro xs
  induction xs with
  | nil =>
    intro ys h hpt
    simp only [mapE, Except.ok.injEq] at h
    simp [← h]
  | cons a xs ih =>
    intro ys h hpt
    rw [mapE] at h
    cases hfa : f a with
    | error e => simp [hfa] at h
    | ok y =>
      cases hm : mapE f xs with
      | error e => simp [hfa, hm] at h
      | ok ys2 =>
        simp only [hfa, hm, Except.ok.injEq] at h
        subst h
        simp only [List.map_cons, List.cons.injEq]
        exact ⟨hpt a (by simp) y hfa,
          ih hm (fun x hx => hpt x (by simp [hx]))⟩

end Lasseck

namespace Lasseck

/-! ## Lemmas about `np.array_split` -/

theorem takeChunks_flatten {α : Type} (sizes : List ℕ) :
    ∀ xs : List α, (takeChunks xs sizes).flatten = xs.take sizes.sum := by
  induction sizes with
  | nil => intro xs; simp [takeChunks]
  | cons s rest ih =>
    intro xs
    simp only [takeChunks, List.flatten_cons, ih, List.sum_cons]
    rw [List.take_add]

theorem takeChunks_length {α : Type} (sizes : List ℕ) :
    ∀ xs : List α, (takeChunks xs sizes).length = sizes.length := by
  induction sizes with
  | nil => intro xs; simp [takeChunks]
  | cons s rest ih => intro xs; simp [takeChunks, ih]

theorem splitSizes_sum (n k : ℕ) (hk : 0 < k) : (splitSizes n k).sum = n := by
  have hlt : n % k < k := Nat.mod_lt _ hk
  have hle : n % k ≤ k := le_of_lt hlt
  simp only [splitSizes, List.sum_append, List.sum_replicate, smul_eq_mul]
  calc n % k * (n / k + 1) + (k - n % k) * (n / k)
      = n % k + (n % k * (n / k) + (k - n % k) * (n / k)) := by ring_nf
    _ = n % k + (n % k + (k - n % k)) * (n / k) := by rw [Nat.add_mul]
    _ = n % k + k * (n / k) := by rw [Nat.add_sub_cancel' hle]
    _ = n := Nat.mod_add_div n k

theorem splitSizes_length (n k : ℕ) (hk : 0 < k) : (splitSizes n k).length = k := by
  have hlt : n % k < k := Nat.mod_lt _ hk
  simp only [splitSizes, List.length_append, List.length_replicate]
  omega

theorem array_split_flatten {α : Type} (xs : List α) (k : ℕ) (hk : 0 < k) :
    (array_split xs k).flatten = xs := by
  rw [array_split, takeChunks_flatten, splitSizes_sum _ _ hk, List.take_length]

theorem array_split_count {α : Type} (xs : List α) (k : ℕ) (hk : 0 < k) :
    (array_split xs k).length = k := by
  rw [array_split, takeChunks_length, splitSizes_length _ _ hk]

/-! ## Lemmas about the template-matching loop -/

theorem writeRows_length (bm : Mat → Mat → ℚ × ℕ × ℕ) (buf h2 : ℤ) (s1 : Mat) :
    ∀ (rows : List (Box × Mat)) (idx : ℕ) (acc : List Triple),
      (writeRows bm buf h2 s1 rows idx acc).length = acc.length := by
  intro rows
  induction rows with
  | nil => intro idx acc; simp [writeRows]
  | cons p rest ih =>
    intro idx acc
    obtain ⟨b, seg⟩ := p
    simp only [writeRows, ih]
    split <;> simp

theorem writeRows_get_lt (bm : Mat → Mat → ℚ × ℕ × ℕ) (buf h2 : ℤ) (s1 : Mat) :
    ∀ (rows : List (Box × Mat)) (idx : ℕ) (acc : List Triple) (j : ℕ), j < idx →
      (writeRows bm buf h2 s1 rows idx acc)[j]? = acc[j]? := by
  intro rows
  induction rows with
  | nil => intro idx acc j hj; simp [writeRows]
  | cons p rest ih =>
    intro idx acc j hj
    obtain ⟨b, seg⟩ := p
    simp only [writeRows]
    rw [ih (idx + 1) _ j (by omega)]
    split
    · exact List.getElem?_set_ne (by omega)
    · rfl

theorem writeRows_get (bm : Mat → Mat → ℚ × ℕ × ℕ) (buf h2 : ℤ) (s1 : Mat) :
    ∀ (rows : List (Box × Mat)) (idx : ℕ) (acc : List Triple) (t : ℕ) (b : Box) (seg : Mat),
      rows[t]? = some (b, seg) → idx + t < acc.length →
      (writeRows bm buf h2 s1 rows idx acc)[idx + t]? =
        if eligible buf h2 s1 b then some (matchValue bm buf h2 s1 b seg)
        else acc[idx + t]? := by
  intro rows
  induction rows with
  | nil => intro idx acc t b seg ht hlen; simp at ht
  | cons p rest ih =>
    intro idx acc t b seg ht hlen
    obtain ⟨b0, seg0⟩ := p
    cases t with
    | zero =>
      simp only [List.getElem?_cons_zero, Option.some.injEq, Prod.mk.injEq] at ht
      obtain ⟨hb, hseg⟩ := ht
      subst hb; subst hseg
      simp only [writeRows]
      rw [writeRows_get_lt bm buf h2 s1 rest (idx + 1) _ (idx + 0) (by omega)]
      split
      · exact List.getElem?_set_eq_of_lt _ (by omega)
      · rfl
    | succ t2 =>
      simp only [List.getElem?_cons_succ] at ht
      simp only [writeRows]
      have hstep : idx + (t2 + 1) = (idx + 1) + t2 := by omega
      rw [hstep]
      rw [ih (idx + 1) _ t2 b seg ht (by
        have hl : (if eligible buf h2 s1 b0 then
            acc.set idx (matchValue bm buf h2 s1 b0 seg0) else acc).length
            = acc.length := by split <;> simp
        omega)]
      split
      · rfl
      · split
        · exact List.getElem?_set_ne (by omega)
        · rfl

theorem match_stats_array_length (bm : Mat → Mat → ℚ × ℕ × ℕ) (buf h2 : ℤ)
    (s1 : Mat) (rows : List (Box × Mat)) :
    (match_stats_array bm buf h2 s1 rows).length = rows.length := by
  rw [match_stats_array, writeRows_length, List.length_replicate]

theorem match_stats_array_get (bm : Mat → Mat → ℚ × ℕ × ℕ) (buf h2 : ℤ)
    (s1 : Mat) (rows : List (Box × Mat)) (t : ℕ) (b : Box) (seg : Mat)
    (ht : rows[t]? = some (b, seg)) :
    (match_stats_array bm buf h2 s1 rows)[t]? =
      some (if eligible buf h2 s1 b then matchValue bm buf h2 s1 b seg
        else ((0 : ℚ), (0 : ℚ), (0 : ℚ))) := by
  have htlt : t < rows.length := by
    by_contra hge
    rw [List.getElem?_eq_none (by omega)] at ht
    exact absurd ht (by simp)
  have h0 : (0 : ℕ) + t = t := by omega
  rw [match_stats_array, ← h0,
    writeRows_get bm buf h2 s1 rows 0 _ t b seg ht (by simpa using htlt)]
  rw [h0]
  split
  · rfl
  · rw [List.getElem?_replicate]
    simp [htlt]

end Lasseck

namespace Lasseck

/-! ## Helper lemmas about the statistics builders -/

theorem describe4_length (xs : List ℚ) : (describe4 xs).length = 4 := rfl

theorem sum_map_const {α : Type} (g : α → ℕ) (c : ℕ) :
    ∀ (l : List α), (∀ x ∈ l, g x = c) → (l.map g).sum = c * l.length := by
  intro l
  induction l with
  | nil => simp
  | cons a t ih =>
    intro h
    simp only [List.map_cons, List.sum_cons, List.length_cons,
      h a (by simp), ih (fun x hx => h x (by simp [hx]))]
    ring

theorem band_stats_flatten_length (m : Mat) (k : ℕ) (hk : 0 < k) :
    (band_stats m k).flatten.length = 4 * k := by
  rw [band_stats, List.length_flatten, List.map_map,
    sum_map_const (List.length ∘ fun b : Mat => describe4 b.flatten) 4 _
      (fun x hx => rfl),
    array_split_count m k hk]

theorem seg_stats_length (sq : ℚ → ℚ) (df : BoxTable) :
    (seg_stats sq df).length = 12 := by
  rw [seg_stats]
  split
  · simp
  · rfl

theorem nan_to_num_isFinite (p : PVal) : (nan_to_num p).isFinite = true := by
  cases p <;> rfl

/-! ## C5: structure and constant length of the first-order row -/

/-- **C5** (confirmed): the `file_stats` row is the concatenation of
the four global statistics of `raw = spec * normal`, the four
statistics of each of the `K` frequency bands, and the 12-entry
segment-statistics block ({min, max, mean, std} over {width, height,
y_min}, or 12 zeros when the box table is empty), so its length is the
constant `4 + 4K + 12` regardless of how many boxes the file has. -/
theorem C5_file_stats_row (env : Env) (cfg : Config) (label : Label)
    (hk : 1 ≤ cfg.num_frequency_bands) :
    (file_stats env cfg label).2 =
      describe4 (smul (file_stats env cfg label).1.2.2
          (file_stats env cfg label).1.2.1).flatten
        ++ (band_stats (smul (file_stats env cfg label).1.2.2
              (file_stats env cfg label).1.2.1) cfg.num_frequency_bands).flatten
        ++ seg_stats env.sqrtQ (file_stats env cfg label).1.1 ∧
    (file_stats env cfg label).2.length = 4 + 4 * cfg.num_frequency_bands + 12 ∧
    ((file_stats env cfg label).1.1 = [] →
      seg_stats env.sqrtQ (file_stats env cfg label).1.1 = List.replicate 12 0) := by
  have hrow : (file_stats env cfg label).2 =
      describe4 (smul (file_stats env cfg label).1.2.2
          (file_stats env cfg label).1.2.1).flatten
        ++ (band_stats (smul (file_stats env cfg label).1.2.2
              (file_stats env cfg label).1.2.1) cfg.num_frequency_bands).flatten
        ++ seg_stats env.sqrtQ (file_stats env cfg label).1.1 := by
    rw [file_stats]
  refine ⟨hrow, ?_, ?_⟩
  · rw [hrow, List.length_append, List.length_append, describe4_length,
      band_stats_flatten_length _ _ hk, seg_stats_length]
  · intro h
    rw [seg_stats, if_pos h]

/-- Witness for C5 at a concrete file: environment B, one frequency
band, label 0. -/
theorem C5_witness :
    1 ≤ cfgA.num_frequency_bands ∧
    (file_stats envB cfgA 0).2.length = 4 + 4 * cfgA.num_frequency_bands + 12 :=
  ⟨by norm_num [cfgA], (C5_file_stats_row envB cfgA 0 (by norm_num [cfgA])).2.1⟩

/-! ## C6: the frequency-band split is a partition -/

/-- **C6** (confirmed): for every `K` from 1 up to the number of
frequency rows, the `np.array_split` equal-chunk split used for the
frequency bands is a partition — concatenating the bands in order
reconstructs the raw spectrogram exactly, with exactly `K` bands — and
the per-band statistics contribute exactly `4 × K` entries. -/
theorem C6_band_partition (m : Mat) (k : ℕ) (h1 : 1 ≤ k) (h2 : k ≤ m.length) :
    (array_split m k).flatten = m ∧ (array_split m k).length = k ∧
    (band_stats m k).flatten.length = 4 * k :=
  ⟨array_split_flatten m k h1, array_split_count m k h1,
    band_stats_flatten_length m k h1⟩

/-- Witness for C6: a 3-row spectrogram split into 2 bands (a
non-dividing count: chunk sizes 2 and 1). -/
theorem C6_witness :
    (array_split ([[1], [2], [3]] : Mat) 2).flatten = [[1], [2], [3]] ∧
    (array_split ([[1], [2], [3]] : Mat) 2).length = 2 ∧
    (band_stats ([[1], [2], [3]] : Mat) 2).flatten.length = 4 * 2 :=
  C6_band_partition [[1], [2], [3]] 2 (by norm_num) (by norm_num)

end Lasseck

namespace Lasseck

/-! ## C1: the vertical search window -/

/-- **C1** counterexample: the upper clamp of the vertical search
window is taken against the height of the *candidate's* spectrogram
(`spec_two.shape[0]`, line 174-175), not against the height of the
source spectrogram being searched, as the claim states.  Concretely:
source height 10, candidate height 6, buffer 1, box `y = 4..6`.  The
code's window is `[3, 6)` (the output's correlation slot carries the
searched stripe's row count 3 = 6 - 3, and its y slot the offset 3),
while the claim's formula gives `y_max_target = min(10, 6 + 1) = 7`,
i.e. a stripe of height 4. -/
theorem C1_counterexample :
    file_file_stats envA cfgA [] specOne10 1 [7] =
      .ok [(7, [((3 : ℚ), (0 : ℚ), (3 : ℚ))])] ∧
    yMaxTarget cfgA.template_match_frequency_buffer (matHeight specTwo6 : ℤ) 6 ≠
      min (matHeight specOne10 : ℤ) (6 + 1) := by
  constructor
  · norm_num [file_file_stats, cfgA, envA, process_item, mapE, extract_segments,
      match_stats_array, writeRows, eligible, matchValue, yMinTarget, yMaxTarget,
      specOne10, specTwo6, matHeight, matWidth, sliceRows, pySlice, slice2d,
      List.replicate]
    push_cast
    norm_num
  · decide

/-- **C1** (corrected): for every template row the window bounds used
by `file_file_stats` satisfy `y_min_target = max(0, y_min - buffer)`
and `y_max_target = min(h_two, y_max + buffer)` where `h_two` is the
height of the *candidate's* (smoothed) spectrogram, not the source's;
in particular `y_min < buffer` forces `y_min_target = 0` and
`y_max > h_two - buffer` forces `y_max_target = h_two`. -/
theorem C1_window_formulas (buffer y_min y_max h_two : ℤ) :
    yMinTarget buffer y_min = max 0 (y_min - buffer) ∧
    yMaxTarget buffer h_two y_max = min h_two (y_max + buffer) ∧
    (y_min < buffer → yMinTarget buffer y_min = 0) ∧
    (y_max > h_two - buffer → yMaxTarget buffer h_two y_max = h_two) := by
  refine ⟨?_, ?_, fun h => ?_, fun h => ?_⟩ <;>
    simp only [yMinTarget, yMaxTarget] <;> split <;> omega

/-- Witness for C1 at concrete boundary inputs: `y_min = 2 < buffer =
5` clamps the lower bound to 0, and `y_max = 9 > 10 - 5` clamps the
upper bound to the candidate height 10. -/
theorem C1_witness :
    ((2 : ℤ) < 5 ∧ yMinTarget 5 2 = 0) ∧
    ((9 : ℤ) > 10 - 5 ∧ yMaxTarget 5 10 9 = 10) :=
  ⟨⟨by norm_num, (C1_window_formulas 5 2 9 10).2.2.1 (by norm_num)⟩,
   ⟨by norm_num, (C1_window_formulas 5 2 9 10).2.2.2 (by norm_num)⟩⟩

/-! ## Helper lemmas about `process_item` -/

theorem process_item_fst (env : Env) (cfg : Config) (s1 : Mat)
    (src : Label → BoxTable × Mat × ℚ) (l : Label) (y : Label × List Triple)
    (h : process_item env cfg s1 src l = .ok y) : y.1 = l := by
  simp only [process_item] at h
  split at h
  · exact absurd h (by simp)
  · split at h
    · exact absurd h (by simp)
    · simp only [Except.ok.injEq] at h
      rw [← h]

theorem process_item_no_pool (env : Env) (cfg : Config) (s1 : Mat)
    (src : Label → BoxTable × Mat × ℚ) (l : Label) (y : Label × List Triple)
    (hpool : cfg.template_pool = none)
    (h : process_item env cfg s1 src l = .ok y) :
    ∃ segs, extract_segments (env.gaussian (src l).2.1) (src l).1 = .ok segs ∧
      y = (l, match_stats_array env.bestMatch cfg.template_match_frequency_buffer
        (matHeight (env.gaussian (src l).2.1) : ℤ) s1 ((src l).1.zip segs)) := by
  simp only [process_item, hpool] at h
  cases hex : extract_segments (env.gaussian (src l).2.1) (src l).1 with
  | error e => rw [hex] at h; exact absurd h (by simp)
  | ok segs =>
    rw [hex] at h
    simp only [Except.ok.injEq] at h
    exact ⟨segs, rfl, h.symm⟩

end Lasseck

namespace Lasseck

/-! ## C2: the candidate set of the no-pool path -/

/-- **C2** counterexample: with no template pool configured,
`run_stats(0)` over the labels table `[0, 1]` writes match statistics
keyed by *both* labels — including the source label 0 itself — because
`run_stats` passes the full labels table through to `file_file_stats`
(lines 135-136 iterate `labels_df.index` unchanged), not the remaining
label set. -/
theorem C2_counterexample :
    (run_stats envB cfgA 0 [0, 1]).map
      (fun tr => tr.map (fun e => e.match_stats.map Prod.fst)) =
      .ok [[0, 1]] := by
  norm_num [run_stats, file_file_stats, mapE, process_item, envB, cfgA,
    extract_segments, match_stats_array, writeRows, Except.map]

/-- **C2** (corrected): when no template pool is configured (and
`db_rw` selects the persisted path), `run_stats` computes the
file-file match statistics for a source label against *every* label of
the labels table — the source label included — producing exactly one
MatchStats entry per label of the table, in table order. -/
theorem C2_match_stats_keys (env : Env) (cfg : Config) (idx : Label)
    (labels : List Label) (tr : List WriteEvent)
    (hdb : cfg.db_rw = true) (hpool : cfg.template_pool = none)
    (h : run_stats env cfg idx labels = .ok tr) :
    (tr.headD ⟨idx, [], []⟩).match_stats.map Prod.fst = labels := by
  simp only [run_stats] at h
  cases hffs : file_file_stats env cfg (file_stats env cfg idx).1.1
      (env.gaussian (file_stats env cfg idx).1.2.1)
      (file_stats env cfg idx).1.2.2 labels with
  | error e => rw [hffs] at h; exact absurd h (by simp)
  | ok ms =>
    rw [hffs] at h
    simp only [Except.ok.injEq] at h
    rw [← h]
    simp only [List.headD_cons]
    simp only [file_file_stats.eq_def, hdb, hpool, if_true] at hffs
    have hpt : ∀ l ∈ labels, ∀ y : Label × List Triple,
        process_item env cfg (env.gaussian (file_stats env cfg idx).1.2.1)
          env.read_spec l = .ok y → y.1 = id l :=
      fun l hl y hy => process_item_fst _ _ _ _ _ _ hy
    rw [mapE_ok_map Prod.fst id hffs hpt, List.map_id]

/-- Witness for C2 at the concrete run of the counterexample input:
both hypotheses and the key list `[0, 1]` are realized. -/
theorem C2_witness :
    cfgA.db_rw = true ∧ cfgA.template_pool = none ∧
    (([⟨0, [1, 2, 3/2, 1/2, 1, 2, 3/2, 1/2, 0, 0, 0, 0, 0, 0, 0, 0, 0, 0, 0, 0],
        [(0, []), (1, [])]⟩] : List WriteEvent).headD
      ⟨0, [], []⟩).match_stats.map Prod.fst = [0, 1] := by
  refine ⟨rfl, rfl, ?_⟩
  refine C2_match_stats_keys envB cfgA 0 [0, 1] _ rfl rfl ?_
  norm_num [run_stats, file_stats, file_file_stats, mapE, process_item, envB,
    cfgA, extract_segments, match_stats_array, writeRows, smul, describe4,
    band_stats, array_split, splitSizes, takeChunks, seg_stats, listMin,
    listMax, listMean, listVar, List.replicate]

/-! ## C9: a single write carrying both results -/

/-- **C9** (confirmed): when `run_stats` completes, it has issued
exactly one persistence write, and that write carries the label's
first-order row (as computed by `file_stats`) together with the
complete file-file match statistics (as computed by
`file_file_stats` on the smoothed spectrogram) — never one without the
other.  Both statistics are computed before the write is issued: a
failure of the match computation aborts with no write at all. -/
theorem C9_single_write (env : Env) (cfg : Config) (idx : Label)
    (labels : List Label) (tr : List WriteEvent)
    (h : run_stats env cfg idx labels = .ok tr) :
    tr.length = 1 ∧
    file_file_stats env cfg (file_stats env cfg idx).1.1
      (env.gaussian (file_stats env cfg idx).1.2.1)
      (file_stats env cfg idx).1.2.2 labels =
      .ok (tr.headD ⟨idx, [], []⟩).match_stats ∧
    tr = [⟨idx, (file_stats env cfg idx).2,
      (tr.headD ⟨idx, [], []⟩).match_stats⟩] := by
  simp only [run_stats] at h
  cases hffs : file_file_stats env cfg (file_stats env cfg idx).1.1
      (env.gaussian (file_stats env cfg idx).1.2.1)
      (file_stats env cfg idx).1.2.2 labels with
  | error e => rw [hffs] at h; exact absurd h (by simp)
  | ok ms =>
    rw [hffs] at h
    simp only [Except.ok.injEq] at h
    rw [← h]
    exact ⟨rfl, rfl, rfl⟩

/-- Witness for C9 at the concrete input of environment B: the single
write of `run_stats(0)` over labels `[0, 1]`. -/
theorem C9_witness :
    run_stats envB cfgA 0 [0, 1] =
      .ok [⟨0, [1, 2, 3/2, 1/2, 1, 2, 3/2, 1/2, 0, 0, 0, 0, 0, 0, 0, 0, 0, 0, 0, 0],
        [(0, []), (1, [])]⟩] ∧
    ([⟨0, [1, 2, 3/2, 1/2, 1, 2, 3/2, 1/2, 0, 0, 0, 0, 0, 0, 0, 0, 0, 0, 0, 0],
        [(0, []), (1, [])]⟩] : List WriteEvent).length = 1 := by
  have h : run_stats envB cfgA 0 [0, 1] =
      .ok [⟨0, [1, 2, 3/2, 1/2, 1, 2, 3/2, 1/2, 0, 0, 0, 0, 0, 0, 0, 0, 0, 0, 0, 0],
        [(0, []), (1, [])]⟩] := by
    norm_num [run_stats, file_stats, file_file_stats, mapE, process_item, envB,
      cfgA, extract_segments, match_stats_array, writeRows, smul, describe4,
      band_stats, array_split, splitSizes, takeChunks, seg_stats, listMin,
      listMax, listMean, listVar, List.replicate]
  exact ⟨h, (C9_single_write envB cfgA 0 [0, 1] _ h).1⟩

end Lasseck

namespace Lasseck

/-! ## C8: the live-generation path -/

/-- **C8** (code bug): with `db_rw = False`, lines 137-138 build
`items = {'label': x for x in labels_df.index.values.tolist()}` — a
*dict comprehension* that produces the single-key dictionary
`{'label': <last label>}` instead of a list of per-label records.
Iterating it yields the key string `'label'`, and `item['label']`
(line 145) then raises `TypeError: string indices must be integers`
whenever the labels table is non-empty; no MatchStats are ever
produced on this path.  (With an empty labels table the dict is empty,
the loop body never runs, and the empty dictionary is returned, so the
error is visible exactly on non-empty input.)  The claim — one
MatchStats entry per candidate label obtained via live generation,
exactly as the persisted path — matches the function's documented
contract, so the code, not the claim, is wrong. -/
theorem C8_live_path_raises :
    file_file_stats envB cfgLive [] [[1], [2]] 1 [0, 1] =
      .error "TypeError: string indices must be integers" ∧
    file_file_stats envB cfgLive [] [[1], [2]] 1 [] = .ok [] :=
  ⟨rfl, rfl⟩

/-! ## C4: the per-candidate MatchStats array -/

/-- **C4** (confirmed): on the persisted no-pool path, the MatchStats
array returned by `file_file_stats` for a candidate label has exactly
one row per extracted segment (zero-initialized via
`np.zeros((n, 3))`), and row `i` is `[max_val, max_x,
max_y + y_min_target]` — the best-match triple of the template against
the frequency-buffered stripe of the source, with the y-coordinate
corrected back to full-spectrogram coordinates — exactly when the
size-eligibility test of lines 182-183 passes, and remains `[0, 0, 0]`
otherwise. -/
theorem C4_match_stats_rows (env : Env) (cfg : Config) (df_one : BoxTable)
    (spec_one : Mat) (normal_one : ℚ) (labels : List Label)
    (ms : List (Label × List Triple)) (l : Label) (arr : List Triple)
    (segs : List Mat)
    (hdb : cfg.db_rw = true) (hpool : cfg.template_pool = none)
    (h : file_file_stats env cfg df_one spec_one normal_one labels = .ok ms)
    (hmem : (l, arr) ∈ ms)
    (hsegs : extract_segments (env.gaussian (env.read_spec l).2.1)
      (env.read_spec l).1 = .ok segs) :
    arr.length = (env.read_spec l).1.length ∧
    ∀ (i : ℕ) (b : Box) (seg : Mat),
      ((env.read_spec l).1)[i]? = some b → segs[i]? = some seg →
      arr[i]? = some
        (if eligible cfg.template_match_frequency_buffer
            (matHeight (env.gaussian (env.read_spec l).2.1) : ℤ) spec_one b
         then matchValue env.bestMatch cfg.template_match_frequency_buffer
            (matHeight (env.gaussian (env.read_spec l).2.1) : ℤ) spec_one b seg
         else ((0 : ℚ), (0 : ℚ), (0 : ℚ))) := by
  simp only [file_file_stats.eq_def, hdb, hpool, if_true] at h
  obtain ⟨x, hx, hpx⟩ := mapE_ok_mem h (l, arr) hmem
  have hxl : x = l := by
    have := process_item_fst env cfg spec_one env.read_spec x (l, arr) hpx
    simpa using this.symm
  subst hxl
  obtain ⟨segs2, hex2, hy⟩ :=
    process_item_no_pool env cfg spec_one env.read_spec x (x, arr) hpool hpx
  rw [hsegs] at hex2
  simp only [Except.ok.injEq] at hex2
  subst hex2
  simp only [Prod.mk.injEq, true_and] at hy
  subst hy
  have hlen : segs.length = (env.read_spec x).1.length :=
    mapE_ok_length hsegs
  constructor
  · rw [match_stats_array_length, List.length_zip, hlen, Nat.min_self]
  · intro i b seg hb hseg
    have hzip : ((env.read_spec x).1.zip segs)[i]? = some (b, seg) := by
      rw [List.getElem?_zip_eq_some]
      exact ⟨hb, hseg⟩
    exact match_stats_array_get env.bestMatch cfg.template_match_frequency_buffer
      (matHeight (env.gaussian (env.read_spec x).2.1) : ℤ) spec_one
      ((env.read_spec x).1.zip segs) i b seg hzip

/-- Witness for C4 at the concrete input of environment A: candidate 7
has one segment, eligible, with best-match triple `(3, 0, 3)`. -/
theorem C4_witness :
    ([((3 : ℚ), (0 : ℚ), (3 : ℚ))] : List Triple).length =
      (envA.read_spec 7).1.length := by
  refine (C4_match_stats_rows envA cfgA [] specOne10 1 [7]
    [(7, [((3 : ℚ), (0 : ℚ), (3 : ℚ))])] 7 [((3 : ℚ), (0 : ℚ), (3 : ℚ))]
    [[[0], [0]]] rfl rfl ?_ (by simp) ?_).1
  · norm_num [file_file_stats, cfgA, envA, process_item, mapE, extract_segments,
      match_stats_array, writeRows, eligible, matchValue, yMinTarget, yMaxTarget,
      specOne10, specTwo6, matHeight, matWidth, sliceRows, pySlice, slice2d,
      List.replicate]
    push_cast
    norm_num
  · rfl

end Lasseck

namespace Lasseck

/-! ## C3: non-finite handling in the feature assembler -/

/-- **C3** counterexample: a NaN persisted inside a *match-stats*
block flows straight into the feature matrix returned by `build_X_y`:
only the first-order rows pass through `np.nan_to_num` (line 252); the
match-stats blocks assembled at lines 254-263 never do. -/
theorem C3_counterexample :
    build_X_y envC cfgA [(0, 1)] =
      .ok ([[PVal.num 1, PVal.num 1, PVal.nan, PVal.num 2]], [1]) ∧
    PVal.nan ∈ [PVal.num 1, PVal.num 1, PVal.nan, PVal.num 2] :=
  ⟨rfl, by simp⟩

/-- **C3** (corrected): `build_X_y` sanitizes only the first-order
block of each row: every value of the persisted first-order row is
passed through `np.nan_to_num` (NaN becomes 0 and `±Inf` the largest
finite double, so the block contains only finite values), while the
selected match-stats blocks are appended verbatim, non-finite values
included. -/
theorem C3_first_order_block_only (env : Env) (cfg : Config)
    (labels_df : List (Label × ℤ)) (X : List (List PVal)) (y : List ℤ)
    (h : build_X_y env cfg labels_df = .ok (X, y))
    (i : ℕ) (l : Label) (t : ℤ) (hl : labels_df[i]? = some (l, t))
    (first : List PVal) (ms : List (Label × List (List PVal)))
    (hdb : env.statsDb l = some (first, ms))
    (blocks : List (List (List PVal)))
    (hsel : mapE (fun c =>
        match ms.lookup c with
        | some blk => Except.ok blk
        | none => Except.error "KeyError: candidate label not in match stats")
        (candidate_set cfg labels_df) = .ok blocks) :
    X[i]? = some (first.map nan_to_num ++ (blocks.map List.flatten).flatten) ∧
    ∀ v ∈ first.map nan_to_num, v.isFinite = true := by
  rw [build_X_y] at h
  cases hm : mapE (fun lv => build_row env (candidate_set cfg labels_df) lv.1)
      labels_df with
  | error e => rw [hm] at h; exact absurd h (by simp)
  | ok X2 =>
    rw [hm] at h
    simp only [Except.ok.injEq, Prod.mk.injEq] at h
    obtain ⟨hX, hy⟩ := h
    subst hX
    obtain ⟨row, hrow, hXi⟩ := mapE_ok_get hm i (l, t) hl
    have hrow2 : row = first.map nan_to_num ++ (blocks.map List.flatten).flatten := by
      simp only [build_row, hdb, hsel, Except.ok.injEq] at hrow
      exact hrow.symm
    subst hrow2
    refine ⟨hXi, ?_⟩
    intro v hv
    obtain ⟨u, hu, huv⟩ := List.mem_map.mp hv
    rw [← huv]
    exact nan_to_num_isFinite u

/-- Witness for C3 at the concrete input of environment D: the NaN and
`+Inf` of the persisted first-order row are replaced, the match block
appended verbatim. -/
theorem C3_witness :
    ([[PVal.num 0, PVal.num maxFloat, PVal.num 5, PVal.num 6, PVal.num 7]] :
        List (List PVal))[0]? =
      some ([PVal.nan, PVal.inf].map nan_to_num ++
        (([[[PVal.num 5, PVal.num 6, PVal.num 7]]].map List.flatten).flatten)) :=
  (C3_first_order_block_only envD cfgA [(0, 1)]
    [[PVal.num 0, PVal.num maxFloat, PVal.num 5, PVal.num 6, PVal.num 7]] [1]
    rfl 0 0 1 rfl [PVal.nan, PVal.inf] [(0, [[PVal.num 5, PVal.num 6, PVal.num 7]])]
    rfl [[[PVal.num 5, PVal.num 6, PVal.num 7]]] rfl).1

/-! ## C7: shape of the feature matrix -/

/-- **C7** counterexample: with one input label and a candidate set of
size 1 whose single candidate has *two* persisted template rows, the
feature-matrix row is `1 + 3·2 = 7` wide — not
`first-order length + 3 × candidate-set size = 4`.  The column count
depends on the total number of template segments of the candidate set,
not on the number of candidate labels. -/
theorem C7_counterexample :
    build_X_y envE cfgA [(0, 1)] =
      .ok ([[PVal.num 1, PVal.num 1, PVal.num 2, PVal.num 3,
             PVal.num 4, PVal.num 5, PVal.num 6]], [1]) ∧
    ([[PVal.num 1, PVal.num 1, PVal.num 2, PVal.num 3,
       PVal.num 4, PVal.num 5, PVal.num 6]] : List (List PVal)).length = 1 ∧
    ([PVal.num 1, PVal.num 1, PVal.num 2, PVal.num 3,
      PVal.num 4, PVal.num 5, PVal.num 6] : List PVal).length ≠
      1 + 3 * (candidate_set cfgA [(0, 1)]).length :=
  ⟨rfl, rfl, by simp [candidate_set, cfgA]⟩

/-- **C7** (corrected): for every label set whose statistics are all
persisted and shape-consistent (first-order rows of a common length
`L`; for each candidate `c` a block of `k c` rows of 3 entries in every
file's match-stats dictionary), the feature matrix has exactly one row
per input label, and every row has length
`L + 3 * Σ_{c ∈ candidates} k c` — the total template count of the
candidate set, which is what is constant across target species, rather
than the candidate-set size itself. -/
theorem C7_matrix_shape (env : Env) (cfg : Config)
    (labels_df : List (Label × ℤ)) (X : List (List PVal)) (y : List ℤ)
    (L : ℕ) (k : Label → ℕ)
    (h : build_X_y env cfg labels_df = .ok (X, y))
    (hshape : ∀ lv ∈ labels_df, ∃ first ms,
      env.statsDb lv.1 = some (first, ms) ∧ first.length = L ∧
      ∀ c ∈ candidate_set cfg labels_df, ∃ blk, ms.lookup c = some blk ∧
        blk.length = k c ∧ ∀ r ∈ blk, r.length = 3) :
    X.length = labels_df.length ∧
    ∀ row ∈ X, row.length =
      L + 3 * ((candidate_set cfg labels_df).map k).sum := by
  rw [build_X_y] at h
  cases hm : mapE (fun lv => build_row env (candidate_set cfg labels_df) lv.1)
      labels_df with
  | error e => rw [hm] at h; exact absurd h (by simp)
  | ok X2 =>
    rw [hm] at h
    simp only [Except.ok.injEq, Prod.mk.injEq] at h
    obtain ⟨hX, hy⟩ := h
    subst hX
    refine ⟨mapE_ok_length hm, ?_⟩
    intro row hrow
    obtain ⟨lv, hlv, hbr⟩ := mapE_ok_mem hm row hrow
    obtain ⟨first, ms, hdb, hfirst, hcand⟩ := hshape lv hlv
    simp only [build_row, hdb] at hbr
    cases hsel : mapE (fun c =>
        match ms.lookup c with
        | some blk => Except.ok blk
        | none => Except.error "KeyError: candidate label not in match stats")
        (candidate_set cfg labels_df) with
    | error e => rw [hsel] at hbr; exact absurd hbr (by simp)
    | ok blocks =>
      rw [hsel] at hbr
      simp only [Except.ok.injEq] at hbr
      rw [← hbr]
      rw [List.length_append, List.length_map, hfirst]
      have hblocks : blocks.map (fun blk => blk.flatten.length) =
          (candidate_set cfg labels_df).map (fun c => 3 * k c) := by
        refine mapE_ok_map (fun blk => blk.flatten.length) (fun c => 3 * k c)
          hsel ?_
        intro c hc blk hblk
        obtain ⟨blk2, hlook, hblen, hrows⟩ := hcand c hc
        rw [hlook] at hblk
        simp only [Except.ok.injEq] at hblk
        subst hblk
        show blk2.flatten.length = 3 * k c
        rw [List.length_flatten, sum_map_const List.length 3 blk2 hrows, hblen]
      have hflat : ((blocks.map List.flatten).flatten).length =
          3 * ((candidate_set cfg labels_df).map k).sum := by
        rw [List.length_flatten, List.map_map]
        have : (List.length ∘ List.flatten) =
            (fun blk : List (List PVal) => blk.flatten.length) := rfl
        rw [this, hblocks, ← List.sum_map_mul_left]
      rw [hflat]

/-- Witness for C7 at the concrete input of environment E: one label,
one candidate with two template rows, so `L = 1`, `k 0 = 2`, and the
single row is `1 + 3·2 = 7` wide. -/
theorem C7_witness :
    ([[PVal.num 1, PVal.num 1, PVal.num 2, PVal.num 3,
       PVal.num 4, PVal.num 5, PVal.num 6]] : List (List PVal)).length =
      ([(0, 1)] : List (Label × ℤ)).length := by
  refine (C7_matrix_shape envE cfgA [(0, 1)]
    [[PVal.num 1, PVal.num 1, PVal.num 2, PVal.num 3,
      PVal.num 4, PVal.num 5, PVal.num 6]] [1] 1 (fun _ => 2) rfl ?_).1
  intro lv hlv
  simp only [List.mem_singleton] at hlv
  subst hlv
  refine ⟨[PVal.num 1], [(0, [[PVal.num 1, PVal.num 2, PVal.num 3],
    [PVal.num 4, PVal.num 5, PVal.num 6]])], rfl, rfl, ?_⟩
  intro c hc
  rw [show candidate_set cfgA [(0, 1)] = [0] from rfl] at hc
  simp only [List.mem_singleton] at hc
  subst hc
  refine ⟨[[PVal.num 1, PVal.num 2, PVal.num 3],
    [PVal.num 4, PVal.num 5, PVal.num 6]], rfl, rfl, ?_⟩
  intro r hr
  rcases List.mem_cons.mp hr with h1 | h2
  · rw [h1]; rfl
  · simp only [List.mem_singleton] at h2
    rw [h2]; rfl

end Lasseck

namespace OpenSoundscape

/-- Constructing a `Spectrogram` through `__init__` with only the four
positional arguments leaves every optional field at its `None` default
and stores `decibel_limits` as passed. -/
theorem mkSpectrogram_ok (m : Lasseck.Mat) (fr t : List ℚ) (d : ℚ × ℚ)
    (out : Spectrogram) (h : mkSpectrogram m fr t d = .ok out) :
    out.window_samples = none ∧ out.overlap_samples = none ∧
    out.window_type = none ∧ out.audio_sample_rate = none ∧
    out.decibel_limits = d := by
  rw [mkSpectrogram] at h
  split at h
  · simp only [Except.ok.injEq] at h
    rw [← h]
    exact ⟨rfl, rfl, rfl, rfl, rfl⟩
  · exact absurd h (by simp)

/-- **C10** (confirmed): every `Spectrogram` produced by the derived
operations `min_max_scale`, `linear_scale`, `limit_db_range`,
`bandpass` and `trim` has its `window_samples`, `overlap_samples`,
`window_type` and `audio_sample_rate` fields reset to `None` — even
when they were set on the input — while `decibel_limits` is carried
over unchanged: each operation constructs the result with only the
four positional constructor arguments. -/
theorem C10_derived_ops_reset_fields (s : Spectrogram) :
    (∀ (fr : ℚ × ℚ) (out : Spectrogram), s.min_max_scale fr = .ok out →
      out.window_samples = none ∧ out.overlap_samples = none ∧
      out.window_type = none ∧ out.audio_sample_rate = none ∧
      out.decibel_limits = s.decibel_limits) ∧
    (∀ (fr : ℚ × ℚ) (out : Spectrogram), s.linear_scale fr = .ok out →
      out.window_samples = none ∧ out.overlap_samples = none ∧
      out.window_type = none ∧ out.audio_sample_rate = none ∧
      out.decibel_limits = s.decibel_limits) ∧
    (∀ (a b : ℚ) (out : Spectrogram), s.limit_db_range a b = .ok out →
      out.window_samples = none ∧ out.overlap_samples = none ∧
      out.window_type = none ∧ out.audio_sample_rate = none ∧
      out.decibel_limits = s.decibel_limits) ∧
    (∀ (a b : ℚ) (out : Spectrogram), s.bandpass a b = .ok out →
      out.window_samples = none ∧ out.overlap_samples = none ∧
      out.window_type = none ∧ out.audio_sample_rate = none ∧
      out.decibel_limits = s.decibel_limits) ∧
    (∀ (a b : ℚ) (out : Spectrogram), s.trim a b = .ok out →
      out.window_samples = none ∧ out.overlap_samples = none ∧
      out.window_type = none ∧ out.audio_sample_rate = none ∧
      out.decibel_limits = s.decibel_limits) := by
  refine ⟨?_, ?_, ?_, ?_, ?_⟩
  · intro fr out h
    rw [Spectrogram.min_max_scale] at h
    split at h
    · exact absurd h (by simp)
    · exact mkSpectrogram_ok _ _ _ _ _ h
  · intro fr out h
    rw [Spectrogram.linear_scale] at h
    split at h
    · exact absurd h (by simp)
    · exact mkSpectrogram_ok _ _ _ _ _ h
  · intro a b out h
    rw [Spectrogram.limit_db_range] at h
    split at h
    · exact absurd h (by simp)
    · exact mkSpectrogram_ok _ _ _ _ _ h
  · intro a b out h
    rw [Spectrogram.bandpass] at h
    split at h
    · exact absurd h (by simp)
    · split at h
      · exact absurd h (by simp)
      · exact absurd h (by simp)
      · exact mkSpectrogram_ok _ _ _ _ _ h
  · intro a b out h
    rw [Spectrogram.trim] at h
    split at h
    · exact absurd h (by simp)
    · exact absurd h (by simp)
    · exact mkSpectrogram_ok _ _ _ _ _ h

/-- Witness for C10 at the concrete spectrogram `s0`, whose four
optional fields are all set: each of the five operations succeeds and
resets them to `None` while keeping `decibel_limits = (-100, -20)`. -/
theorem C10_witness :
    (s0.min_max_scale (0, 1) =
        .ok ⟨[[0]], [0], [0], (-100, -20), none, none, none, none⟩ ∧
      (⟨[[0]], [0], [0], (-100, -20), none, none, none, none⟩ :
        Spectrogram).decibel_limits = s0.decibel_limits) ∧
    (s0.linear_scale (0, 1) =
        .ok ⟨[[101/80]], [0], [0], (-100, -20), none, none, none, none⟩ ∧
      (⟨[[101/80]], [0], [0], (-100, -20), none, none, none, none⟩ :
        Spectrogram).window_samples = none) ∧
    (s0.limit_db_range (-100) (-20) =
        .ok ⟨[[-20]], [0], [0], (-100, -20), none, none, none, none⟩ ∧
      (⟨[[-20]], [0], [0], (-100, -20), none, none, none, none⟩ :
        Spectrogram).overlap_samples = none) ∧
    (s0.bandpass (-1) 1 =
        .ok ⟨[[1]], [0], [0], (-100, -20), none, none, none, none⟩ ∧
      (⟨[[1]], [0], [0], (-100, -20), none, none, none, none⟩ :
        Spectrogram).window_type = none) ∧
    (s0.trim 0 1 =
        .ok ⟨[[1]], [0], [0], (-100, -20), none, none, none, none⟩ ∧
      (⟨[[1]], [0], [0], (-100, -20), none, none, none, none⟩ :
        Spectrogram).audio_sample_rate = none) := by
  have h1 : s0.min_max_scale (0, 1) =
      .ok ⟨[[0]], [0], [0], (-100, -20), none, none, none, none⟩ := by
    norm_num [Spectrogram.min_max_scale, helper_min_max_scale, mkSpectrogram, s0,
      Lasseck.listMin, Lasseck.listMax]
  have h2 : s0.linear_scale (0, 1) =
      .ok ⟨[[101/80]], [0], [0], (-100, -20), none, none, none, none⟩ := by
    norm_num [Spectrogram.linear_scale, helper_linear_scale, mkSpectrogram, s0]
  have h3 : s0.limit_db_range (-100) (-20) =
      .ok ⟨[[-20]], [0], [0], (-100, -20), none, none, none, none⟩ := by
    norm_num [Spectrogram.limit_db_range, mkSpectrogram, s0]
  have h4 : s0.bandpass (-1) 1 =
      .ok ⟨[[1]], [0], [0], (-100, -20), none, none, none, none⟩ := by
    norm_num [Spectrogram.bandpass, argminAbsDist, mkSpectrogram, s0,
      Lasseck.pySlice, List.enum]
  have h5 : s0.trim 0 1 =
      .ok ⟨[[1]], [0], [0], (-100, -20), none, none, none, none⟩ := by
    norm_num [Spectrogram.trim, argminAbsDist, mkSpectrogram, s0,
      Lasseck.pySlice, List.enum]
  exact ⟨⟨h1, ((C10_derived_ops_reset_fields s0).1 (0, 1) _ h1).2.2.2.2⟩,
    ⟨h2, ((C10_derived_ops_reset_fields s0).2.1 (0, 1) _ h2).1⟩,
    ⟨h3, ((C10_derived_ops_reset_fields s0).2.2.1 (-100) (-20) _ h3).2.1⟩,
    ⟨h4, ((C10_derived_ops_reset_fields s0).2.2.2.1 (-1) 1 _ h4).2.2.1⟩,
    ⟨h5, ((C10_derived_ops_reset_fields s0).2.2.2.2 0 1 _ h5).2.2.2.1⟩⟩

end OpenSoundscape
